import Mathlib

/-!
# AttachmentCarousel — shallow embedding

A shallow embedding of `src/components/Attachments/AttachmentCarousel/index.tsx`
(the gesture-to-page state machine of the attachment carousel) and proofs about
its operations.

Modelling conventions:
* Numbers that are JavaScript `number`s participating in division or gesture
  arithmetic (`containerWidth`, `offsetX`, translations, velocities, `scale`)
  are `ℚ`; discrete indices (`page`, list indices, step deltas) are `ℤ`.
* React `useState` fields, `useSharedValue` fields and `useRef` fields are all
  fields of one `CarouselState` record; a handler is a function
  `CarouselState → CarouselState` (plus an output record when the handler fires
  host callbacks).
* `withTiming` animations on `offsetX` are modelled by an `animPending` field
  holding the target, duration, easing curve and the page index the completion
  callback will commit.  Per the reanimated library's documented semantics,
  assigning a new value (or a new animation) to an animated shared value
  cancels an in-flight animation and invokes its completion callback with
  `finished = false`; the carousel's completion callbacks ignore the `finished`
  argument (they are `() => { setPage(nextIndex); isPagerScrolling.value =
  false; }`), so cancellation still runs the commit.  `completeAnim` models the
  normal end of an animation.
* `scrollRef.current` being non-null is the Boolean `scrollRefSet`;
  `isFullScreenRef.current` is `isFullScreen`.
-/

namespace Carousel

/-- A touch point `{x, y}` recorded by the pan gesture. -/
structure Touch where
  x : ℚ
  y : ℚ
deriving DecidableEq, Repr

/-- An attachment descriptor; only the identity-bearing `source` and a display
name are kept (structural equality over these models lodash `isEqual`). -/
structure Attachment where
  source : Int
  name : String
deriving DecidableEq, Repr

/-- The easing curve passed to `withTiming`: `Easing.inOut(Easing.quad)` in
`cycleThroughAttachments`, `Easing.out(Easing.quad)` in `gotoAttachments`. -/
inductive EasingKind where
  | inOutQuad
  | outQuad
deriving DecidableEq, Repr

/-- An in-flight `withTiming` animation on `offsetX`: its target value, its
duration, its easing curve, and the page index its completion callback
commits (`setPage(nextIndex)`). -/
structure AnimPending where
  target : ℚ
  duration : ℚ
  easing : EasingKind
  commitIndex : Int
deriving DecidableEq, Repr

/-- The carousel's state: React state, shared values and refs of
`AttachmentCarousel`. -/
structure CarouselState where
  containerWidth : ℚ
  page : Int
  attachments : List Attachment
  activeSource : Option Int
  offsetX : ℚ
  isPagerScrolling : Bool
  isScrollEnabled : Bool
  scale : ℚ
  firstTouch : Option Touch
  secondTouch : Option Touch
  panGestureActive : Bool
  translationX : ℚ
  translationY : ℚ
  velocityX : ℚ
  velocityY : ℚ
  scrollRefSet : Bool
  isFullScreen : Bool
  animPending : Option AnimPending
deriving DecidableEq, Repr

/-- JavaScript `list[i]` for a possibly negative integer index: `undefined`
(here `none`) outside `[0, length)`. -/
def getItem (l : List Attachment) (i : Int) : Option Attachment :=
  if 0 ≤ i then l.get? i.toNat else none

/-- The body of both `withTiming` completion callbacks in the source:
`() => { setPage(nextIndex); isPagerScrolling.value = false; }`.  It receives
reanimated's `finished` flag but ignores it, so it runs the same way on normal
completion and on cancellation. -/
def fireCallback (s : CarouselState) (a : AnimPending) : CarouselState :=
  { s with page := a.commitIndex, isPagerScrolling := false }

/-- Reanimated semantics: writing to a shared value that has an animation in
flight cancels that animation, invoking its callback (with `finished =
false`). -/
def cancelPending (s : CarouselState) : CarouselState :=
  match s.animPending with
  | none => s
  | some a => { fireCallback s a with animPending := none }

/-- A plain assignment `offsetX.value = v` (cancels any in-flight animation). -/
def setOffsetX (s : CarouselState) (v : ℚ) : CarouselState :=
  { cancelPending s with offsetX := v }

/-- `offsetX.value = withTiming(target, {duration, easing}, callback)`:
cancels any in-flight animation and installs the new one. -/
def startTiming (s : CarouselState) (target duration : ℚ) (easing : EasingKind)
    (commitIndex : Int) : CarouselState :=
  { cancelPending s with animPending := some ⟨target, duration, easing, commitIndex⟩ }

/-- The in-flight animation reaches its target: `offsetX` arrives at the
target and the completion callback fires with `finished = true`. -/
def completeAnim (s : CarouselState) : CarouselState :=
  match s.animPending with
  | none => s
  | some a => { fireCallback s a with animPending := none, offsetX := a.target }

/-- `cycleThroughAttachments(deltaSlide)` (arrow-button navigation): guard on
full-screen, target existence and the scroll ref; then snap `offsetX` to
`containerWidth * page` and animate to `containerWidth * nextIndex` over 300 ms
with `Easing.inOut(Easing.quad)`, committing `nextIndex` on completion. -/
def cycleThroughAttachments (s : CarouselState) (deltaSlide : Int) : CarouselState :=
  if s.isFullScreen then s
  else
    let nextIndex := s.page + deltaSlide
    match getItem s.attachments nextIndex with
    | none => s
    | some _ =>
      if !s.scrollRefSet then s
      else
        let s1 := setOffsetX s (s.containerWidth * (s.page : ℚ))
        startTiming s1 (s.containerWidth * (nextIndex : ℚ)) 300 .inOutQuad nextIndex

/-- `gotoAttachments(deltaSlide)` (post-gesture jump): same guard as
`cycleThroughAttachments`, then animate `offsetX` to
`containerWidth * nextIndex` over 300 ms with `Easing.out(Easing.quad)`
(no snap of `offsetX` first), committing `nextIndex` on completion. -/
def gotoAttachments (s : CarouselState) (deltaSlide : Int) : CarouselState :=
  if s.isFullScreen then s
  else
    let nextIndex := s.page + deltaSlide
    match getItem s.attachments nextIndex with
    | none => s
    | some _ =>
      if !s.scrollRefSet then s
      else
        startTiming s (s.containerWidth * (nextIndex : ℚ)) 300 .outQuad nextIndex

/-- `panGesture.onTouchesMove`: decides whether to activate the pan gesture.
The argument `t` is the last entry of `evt.allTouches` (its `{x, y}`). -/
def onTouchesMove (s : CarouselState) (t : Touch) : CarouselState :=
  if s.isPagerScrolling then s
  else if s.panGestureActive then s
  else if s.firstTouch.isSome && s.secondTouch.isSome then s
  else if s.scale < 1 then { s with panGestureActive := true }
  else
    let s1 :=
      if s.firstTouch.isNone then { s with firstTouch := some t }
      else if s.secondTouch.isNone then { s with secondTouch := some t }
      else s
    match s1.firstTouch, s1.secondTouch with
    | some t1, some t2 =>
      if s1.scale = 1 then
        if |t2.y - t1.y| < |t2.x - t1.x| then { s1 with panGestureActive := true }
        else s1
      else s1
    | _, _ => s1

/-- The fields of the gesture-update event consumed by `panGesture.onUpdate`. -/
structure PanEvent where
  translationX : ℚ
  translationY : ℚ
  velocityX : ℚ
  velocityY : ℚ
deriving DecidableEq, Repr

/-- `panGesture.onUpdate`: while the pan is active and layout is known, move
`offsetX` to `containerWidth * page - translationX` unless that would leave
`[0, containerWidth * (attachments.length - 1)]`, and record the event's
translation and velocity. -/
def onUpdate (s : CarouselState) (evt : PanEvent) : CarouselState :=
  if !s.panGestureActive then s
  else if s.containerWidth = 0 then s
  else if !s.scrollRefSet then s
  else
    let offset := s.containerWidth * (s.page : ℚ) - evt.translationX
    if offset < 0 ∨ offset > s.containerWidth * ((s.attachments.length : ℚ) - 1) then s
    else
      { setOffsetX s offset with
        isPagerScrolling := true
        translationX := evt.translationX
        translationY := evt.translationY
        velocityX := evt.velocityX
        velocityY := evt.velocityY }

/-- The two leading assignments of `panGesture.onTouchesUp`:
`firstTouch.value = null; secondTouch.value = null;`. -/
def clearTouches (s : CarouselState) : CarouselState :=
  { s with firstTouch := none, secondTouch := none }

/-- `panGesture.onTouchesUp`: clear the touch samples; if the pan activated
and the pager was scrolling, pick the jump delta from the distance/velocity
thresholds and run `gotoAttachments`; finally reset the active flag and the
translation/velocity accumulators. -/
def onTouchesUp (s : CarouselState) : CarouselState :=
  let s0 := clearTouches s
  if !s0.panGestureActive then s0
  else
    let s1 :=
      if s0.isPagerScrolling then
        if |s0.translationX| > s0.containerWidth / 3 ∨ |s0.velocityX| > 100 then
          if s0.translationX > 0 then gotoAttachments s0 (-1)
          else gotoAttachments s0 1
        else gotoAttachments s0 0
      else s0
    { s1 with
      panGestureActive := false
      translationX := 0
      translationY := 0
      velocityX := 0
      velocityY := 0 }

/-- One entry of `viewableItems` as delivered to `updatePage`
(react-native's `ViewToken`: `index` may be `null`). -/
structure ViewableEntry where
  index : Option Int
  item : Attachment
deriving DecidableEq, Repr

/-- The outcome of `updatePage`: the new state, whether `Keyboard.dismiss()`
ran, and the argument of the `onNavigate` host callback if it fired. -/
structure UpdatePageResult where
  state : CarouselState
  keyboardDismissed : Bool
  navigateTo : Option Attachment
deriving DecidableEq, Repr

/-- `updatePage({viewableItems})`: ignore in full-screen mode; otherwise
dismiss the keyboard, clear the active source when nothing is viewable, and
otherwise commit the first viewable entry's index/source and notify
`onNavigate`. -/
def updatePage (s : CarouselState) (viewableItems : List ViewableEntry) : UpdatePageResult :=
  if s.isFullScreen then ⟨s, false, none⟩
  else
    match viewableItems.head? with
    | none => ⟨{ s with activeSource := none }, true, none⟩
    | some entry =>
      let s1 :=
        match entry.index with
        | some i => { s with page := i, activeSource := some entry.item.source }
        | none => s
      ⟨s1, true, some entry.item⟩

/-- JavaScript `Array.prototype.findIndex` for the predicate
`attachment.source === source` (`compareImage`): index of the first match,
`-1` if none. -/
def findIndexSource (l : List Attachment) (src : Int) : Int :=
  match l with
  | [] => -1
  | a :: rest =>
    if a.source = src then 0
    else
      let r := findIndexSource rest src
      if r = -1 then -1 else r + 1

/-- The outcome of the attachment-derivation effect: the new state, whether
`Navigation.dismissModal()` ran, the argument of `onNavigate` if it fired, and
the argument of `setDownloadButtonVisibility` if it fired. -/
structure DeriveResult where
  state : CarouselState
  dismissed : Bool
  navigateTo : Option Attachment
  downloadButtonVisible : Option Bool
deriving DecidableEq, Repr

/-- The `useEffect` deriving the attachment list: if the freshly extracted
list is `isEqual` to the stored one, return; locate the externally supplied
`source` in the new list; if absent there but present in the stored list,
dismiss the modal; otherwise store the new page and list and notify the
host. -/
def deriveAttachments (s : CarouselState) (src : Int)
    (attachmentsFromReport : List Attachment) : DeriveResult :=
  if s.attachments = attachmentsFromReport then ⟨s, false, none, none⟩
  else
    let initialPage := findIndexSource attachmentsFromReport src
    if initialPage = -1 ∧ (s.attachments.find? (fun a => a.source == src)).isSome then
      ⟨s, true, none, none⟩
    else
      ⟨{ s with page := initialPage, attachments := attachmentsFromReport },
        false,
        getItem attachmentsFromReport initialPage,
        some (initialPage ≠ -1)⟩

/-- Erases the easing curve of the pending animation (replacing it by a fixed
one), to state "the two step operations agree up to the easing curve". -/
def eraseEasing (s : CarouselState) : CarouselState :=
  match s.animPending with
  | none => s
  | some a => { s with animPending := some { a with easing := .inOutQuad } }

/-- Sample attachment. -/
def attA : Attachment := ⟨1, "a.png"⟩

/-- Sample attachment. -/
def attB : Attachment := ⟨2, "b.png"⟩

/-- Sample attachment. -/
def attC : Attachment := ⟨3, "c.png"⟩

/-- A resting carousel showing the first of three attachments in a 300-wide
container. -/
def baseState : CarouselState where
  containerWidth := 300
  page := 0
  attachments := [attA, attB, attC]
  activeSource := some 1
  offsetX := 0
  isPagerScrolling := false
  isScrollEnabled := true
  scale := 1
  firstTouch := none
  secondTouch := none
  panGestureActive := false
  translationX := 0
  translationY := 0
  velocityX := 0
  velocityY := 0
  scrollRefSet := true
  isFullScreen := false
  animPending := none

/-- A zoomed-out carousel with two touch samples already recorded. -/
def zoomedTwoTouchState : CarouselState :=
  { baseState with scale := 1/2, firstTouch := some ⟨0, 0⟩, secondTouch := some ⟨40, 2⟩ }

/-- A carousel on its second page with an active pan gesture. -/
def panningState : CarouselState :=
  { baseState with panGestureActive := true, page := 1, offsetX := 300 }

/-- A carousel at rest on its second page. -/
def restingPage1State : CarouselState :=
  { baseState with page := 1, offsetX := 300 }

/-- A zoomed-out carousel at rest. -/
def zoomedIdleState : CarouselState :=
  { baseState with scale := 1/2 }

/-- A released gesture: pan active, pager scrolling, content dragged left. -/
def releaseState : CarouselState :=
  { baseState with
      panGestureActive := true
      isPagerScrolling := true
      translationX := -150
      offsetX := 150 }

/-- The animation record installed by a successful step to `nextIndex` in a
container of width `w`: target `w * nextIndex`, duration 300, commit of
`nextIndex` on completion. -/
def jumpAnim (w : ℚ) (nextIndex : Int) (e : EasingKind) : AnimPending :=
  ⟨w * (nextIndex : ℚ), 300, e, nextIndex⟩

/-- A carousel whose offset was moved off the resting position by a gesture. -/
def draggedState : CarouselState :=
  { baseState with offsetX := 37 }

/- ### Helper lemmas -/

theorem getItem_eq_none {l : List Attachment} {i : Int}
    (h : i < 0 ∨ (l.length : Int) ≤ i) : getItem l i = none := by
  unfold getItem
  rcases h with h | h
  · rw [if_neg (by omega)]
  · rw [if_pos (by omega)]
    exact List.get?_eq_none.mpr (by omega)

theorem findIndexSource_nonneg_or (l : List Attachment) (src : Int) :
    findIndexSource l src = -1 ∨ 0 ≤ findIndexSource l src := by
  induction l with
  | nil => left; rfl
  | cons a rest ih =>
    unfold findIndexSource
    by_cases ha : a.source = src
    · right; simp [ha]
    · rcases ih with h | h
      · left; simp [ha, h]
      · by_cases hr : findIndexSource rest src = -1
        · left; simp [ha, hr]
        · right; simp [ha, hr]; omega

theorem findIndexSource_eq_neg_one_iff (l : List Attachment) (src : Int) :
    findIndexSource l src = -1 ↔ l.find? (fun a => a.source == src) = none := by
  induction l with
  | nil => simp [findIndexSource]
  | cons a rest ih =>
    unfold findIndexSource
    by_cases ha : a.source = src
    · simp [ha, List.find?]
    · have hbeq : (a.source == src) = false := by simp [ha]
      rcases findIndexSource_nonneg_or rest src with h | h
      · simp [ha, h, List.find?, hbeq, ih.mp h]
      · have hr : findIndexSource rest src ≠ -1 := by omega
        have hfind : rest.find? (fun a => a.source == src) ≠ none := by
          intro hc
          exact hr (ih.mpr hc)
        simp only [ne_eq] at hfind
        simp [ha, hr, List.find?, hbeq]
        constructor
        · intro hc; omega
        · intro hc
          exact absurd (by simpa using hc) hfind

/- ### C3 — out-of-bounds steps are no-ops -/

/-- C3: for every delta with `page + delta` outside `[0, attachments.length - 1]`,
both `cycleThroughAttachments` and `gotoAttachments` leave the whole state
unchanged — in particular `page` and `offsetX` keep their values, no animation
is installed and no callback fires. -/
theorem step_out_of_bounds_noop (s : CarouselState) (delta : Int)
    (h : s.page + delta < 0 ∨ (s.attachments.length : Int) ≤ s.page + delta) :
    cycleThroughAttachments s delta = s ∧ gotoAttachments s delta = s := by
  have hg : getItem s.attachments (s.page + delta) = none := getItem_eq_none h
  constructor <;> simp [cycleThroughAttachments, gotoAttachments, hg]

/-- Witness for C3: stepping backwards from the first page changes nothing. -/
theorem step_out_of_bounds_noop_witness :
    cycleThroughAttachments baseState (-1) = baseState ∧
      gotoAttachments baseState (-1) = baseState :=
  step_out_of_bounds_noop baseState (-1) (by left; decide)

/- ### C10 — derivation from structurally identical data is a no-op -/

/-- C10: when the freshly derived attachment list is structurally equal to the
stored one, the derivation effect returns before any state write: the state is
unchanged and no dismiss / navigate / download-button callback fires. -/
theorem derive_identical_noop (s : CarouselState) (src : Int) (l : List Attachment)
    (h : l = s.attachments) :
    deriveAttachments s src l = ⟨s, false, none, none⟩ := by
  simp [deriveAttachments, h]

/-- Witness for C10 at a concrete state and list. -/
theorem derive_identical_noop_witness :
    deriveAttachments baseState 1 [attA, attB, attC] = ⟨baseState, false, none, none⟩ :=
  derive_identical_noop baseState 1 [attA, attB, attC] rfl

/- ### C6 — deleted active attachment dismisses the modal -/

/-- C6: if the tracked source is absent from the newly derived list but an
attachment with that source is present in the stored list, the derivation
effect only signals dismissal: the state (page and stored list included) is
unchanged and neither `onNavigate` nor `setDownloadButtonVisibility` fires. -/
theorem derive_absent_source_dismisses (s : CarouselState) (src : Int)
    (l : List Attachment)
    (h1 : findIndexSource l src = -1)
    (h2 : (s.attachments.find? (fun a => a.source == src)).isSome = true) :
    deriveAttachments s src l = ⟨s, true, none, none⟩ := by
  have hne : ¬ s.attachments = l := by
    intro heq
    have hnone := (findIndexSource_eq_neg_one_iff l src).mp h1
    rw [← heq] at hnone
    rw [hnone] at h2
    simp at h2
  simp [deriveAttachments, hne, h1, h2]

/-- Witness for C6: `[A,B,C]` with active source `B`, refreshed to `[A,C]`. -/
theorem derive_absent_source_dismisses_witness :
    deriveAttachments baseState 2 [attA, attC] = ⟨baseState, true, none, none⟩ :=
  derive_absent_source_dismisses baseState 2 [attA, attC] (by decide) (by decide)

/- ### C7 — the visibility-change handler -/

/-- C7: `updatePage` ignores everything while the host is full-screen; with no
viewable entry it only clears the active source (after dismissing the
keyboard); with a viewable entry carrying an index it commits that index,
stores the entry's source as active and notifies `onNavigate` with the entry's
item. -/
theorem updatePage_cases (s : CarouselState) (items : List ViewableEntry) :
    (s.isFullScreen = true → updatePage s items = ⟨s, false, none⟩) ∧
    (s.isFullScreen = false → items.head? = none →
      updatePage s items = ⟨{ s with activeSource := none }, true, none⟩) ∧
    (∀ e i, s.isFullScreen = false → items.head? = some e → e.index = some i →
      updatePage s items =
        ⟨{ s with page := i, activeSource := some e.item.source }, true, some e.item⟩) := by
  refine ⟨?_, ?_, ?_⟩
  · intro h
    simp [updatePage, h]
  · intro h hh
    simp [updatePage, h, hh]
  · intro e i h hh hi
    simp [updatePage, h, hh, hi]

/-- Witness for C7: a viewable second page commits index 1, its source and
fires `onNavigate`. -/
theorem updatePage_cases_witness :
    updatePage baseState [⟨some 1, attB⟩] =
      ⟨{ baseState with page := 1, activeSource := some attB.source }, true, some attB⟩ :=
  (updatePage_cases baseState [⟨some 1, attB⟩]).2.2 ⟨some 1, attB⟩ 1 rfl rfl rfl

/- ### C2 — zoomed-out activation on touch move -/

/-- C2 (amended): with zoom scale < 1 a touch-move activates the pan gesture
immediately, provided the pager is not scrolling, the pan is not already
active and fewer than two touch samples are recorded; activation changes
nothing but the active flag. -/
theorem zoomedOut_touchMove_activates (s : CarouselState) (t : Touch)
    (h1 : s.isPagerScrolling = false) (h2 : s.panGestureActive = false)
    (h3 : s.firstTouch = none ∨ s.secondTouch = none) (h4 : s.scale < 1) :
    onTouchesMove s t = { s with panGestureActive := true } := by
  unfold onTouchesMove
  rcases h3 with h3 | h3 <;> simp [h1, h2, h3, h4]

/-- Witness for C2 (amended) at scale 1/2 with one recorded touch sample. -/
theorem zoomedOut_touchMove_activates_witness :
    onTouchesMove { baseState with scale := 1/2, firstTouch := some ⟨0, 0⟩ } ⟨5, 5⟩ =
      { baseState with scale := 1/2, firstTouch := some ⟨0, 0⟩, panGestureActive := true } :=
  zoomedOut_touchMove_activates { baseState with scale := 1/2, firstTouch := some ⟨0, 0⟩ }
    ⟨5, 5⟩ rfl rfl (Or.inr rfl) (by norm_num [baseState])

/-- C2 counterexample: at zoom scale 1/2 (< 1) with two touch samples already
recorded, a touch-move does *not* activate the pan gesture — the handler
returns with the state unchanged, contradicting "activates regardless of how
many touch samples have been recorded". -/
theorem zoomedOut_twoTouches_no_activation :
    zoomedTwoTouchState.scale < 1 ∧
    zoomedTwoTouchState.firstTouch.isSome = true ∧
    zoomedTwoTouchState.secondTouch.isSome = true ∧
    onTouchesMove zoomedTwoTouchState ⟨5, 5⟩ = zoomedTwoTouchState := by
  refine ⟨by norm_num [zoomedTwoTouchState, baseState], rfl, rfl, ?_⟩
  simp [onTouchesMove, zoomedTwoTouchState, baseState]

/- ### Release decision (C1) -/

theorem clearTouches_panGestureActive (s : CarouselState) :
    (clearTouches s).panGestureActive = s.panGestureActive := rfl

theorem clearTouches_isPagerScrolling (s : CarouselState) :
    (clearTouches s).isPagerScrolling = s.isPagerScrolling := rfl

theorem clearTouches_translationX (s : CarouselState) :
    (clearTouches s).translationX = s.translationX := rfl

theorem clearTouches_velocityX (s : CarouselState) :
    (clearTouches s).velocityX = s.velocityX := rfl

theorem clearTouches_containerWidth (s : CarouselState) :
    (clearTouches s).containerWidth = s.containerWidth := rfl

theorem clearTouches_page (s : CarouselState) :
    (clearTouches s).page = s.page := rfl

theorem clearTouches_attachments (s : CarouselState) :
    (clearTouches s).attachments = s.attachments := rfl

theorem clearTouches_animPending (s : CarouselState) :
    (clearTouches s).animPending = s.animPending := rfl

theorem gotoAttachments_success (s : CarouselState) (d : Int) (a : Attachment)
    (hF : s.isFullScreen = false) (hR : s.scrollRefSet = true)
    (hget : getItem s.attachments (s.page + d) = some a) (hP : s.animPending = none) :
    gotoAttachments s d
      = { s with animPending := some (jumpAnim s.containerWidth (s.page + d) .outQuad) } := by
  simp [gotoAttachments, hF, hR, hget, startTiming, cancelPending, hP, jumpAnim]

theorem gotoAttachments_page (s : CarouselState) (d : Int) (hP : s.animPending = none) :
    (gotoAttachments s d).page = s.page := by
  unfold gotoAttachments
  dsimp only
  split
  · rfl
  · cases hg : getItem s.attachments (s.page + d) with
    | none => simp [hg]
    | some a =>
      dsimp only
      split
      · rfl
      · simp [startTiming, cancelPending, hP]

theorem onTouchesUp_page (s : CarouselState) (hP : s.animPending = none) :
    (onTouchesUp s).page = s.page := by
  have hp0 : (clearTouches s).animPending = none := hP
  unfold onTouchesUp
  dsimp only
  repeat' split
  all_goals first
    | rfl
    | exact gotoAttachments_page _ _ hp0

/-- C1: on release of an activated, mid-scroll pan (with an idle animator),
the handler resets the active flag and all translation/velocity accumulators
to zero and keeps the page; and it starts the 300 ms `Easing.out` jump to the
next page when translation is negative (resp. the previous page when
translation is positive) exactly when `|translationX| > containerWidth / 3` or
`|velocityX| > 100`, and the delta-0 snap-back to the current page
otherwise. -/
theorem release_commit_decision (s : CarouselState)
    (hA : s.panGestureActive = true) (hS : s.isPagerScrolling = true)
    (hF : s.isFullScreen = false) (hR : s.scrollRefSet = true)
    (hP : s.animPending = none) :
    ((onTouchesUp s).panGestureActive = false ∧ (onTouchesUp s).page = s.page ∧
      (onTouchesUp s).translationX = 0 ∧ (onTouchesUp s).translationY = 0 ∧
      (onTouchesUp s).velocityX = 0 ∧ (onTouchesUp s).velocityY = 0) ∧
    (∀ a, (|s.translationX| > s.containerWidth / 3 ∨ |s.velocityX| > 100) →
      s.translationX < 0 → getItem s.attachments (s.page + 1) = some a →
      (onTouchesUp s).animPending = some (jumpAnim s.containerWidth (s.page + 1) .outQuad)) ∧
    (∀ a, (|s.translationX| > s.containerWidth / 3 ∨ |s.velocityX| > 100) →
      0 < s.translationX → getItem s.attachments (s.page + -1) = some a →
      (onTouchesUp s).animPending = some (jumpAnim s.containerWidth (s.page + -1) .outQuad)) ∧
    (¬(|s.translationX| > s.containerWidth / 3 ∨ |s.velocityX| > 100) →
      ∀ a, getItem s.attachments (s.page + 0) = some a →
      (onTouchesUp s).animPending = some (jumpAnim s.containerWidth (s.page + 0) .outQuad)) := by
  have hA' : (clearTouches s).panGestureActive = true := hA
  have hS' : (clearTouches s).isPagerScrolling = true := hS
  refine ⟨⟨?_, onTouchesUp_page s hP, ?_, ?_, ?_, ?_⟩, ?_, ?_, ?_⟩
  · simp [onTouchesUp, hA']
  · simp [onTouchesUp, hA']
  · simp [onTouchesUp, hA']
  · simp [onTouchesUp, hA']
  · simp [onTouchesUp, hA']
  · intro a hthr hneg hget
    have hnp : ¬ ((clearTouches s).translationX > 0) :=
      not_lt.mpr (le_of_lt hneg)
    have hthr' : |(clearTouches s).translationX| > (clearTouches s).containerWidth / 3 ∨
        |(clearTouches s).velocityX| > 100 := hthr
    have hgoto := gotoAttachments_success (clearTouches s) 1 a hF hR hget hP
    simp only [onTouchesUp, hA', hS', Bool.not_true, Bool.false_eq_true, if_false,
      if_pos hthr', if_neg hnp, hgoto]
    rfl
  · intro a hthr hpos hget
    have hp : (clearTouches s).translationX > 0 := hpos
    have hthr' : |(clearTouches s).translationX| > (clearTouches s).containerWidth / 3 ∨
        |(clearTouches s).velocityX| > 100 := hthr
    have hgoto := gotoAttachments_success (clearTouches s) (-1) a hF hR hget hP
    simp only [onTouchesUp, hA', hS', Bool.not_true, Bool.false_eq_true, if_false,
      if_pos hthr', if_pos hp, hgoto]
    rfl
  · intro hthr a hget
    have hthr' : ¬ (|(clearTouches s).translationX| > (clearTouches s).containerWidth / 3 ∨
        |(clearTouches s).velocityX| > 100) := hthr
    have hgoto := gotoAttachments_success (clearTouches s) 0 a hF hR hget hP
    simp only [onTouchesUp, hA', hS', Bool.not_true, Bool.false_eq_true, if_false,
      if_neg hthr', hgoto]
    rfl

/-- Witness for C1: a 150-unit leftward drag in a 300-wide container commits
to the next page and zeroes the accumulators. -/
theorem release_commit_decision_witness :
    (onTouchesUp releaseState).animPending =
      some (jumpAnim releaseState.containerWidth (releaseState.page + 1) .outQuad) ∧
    (onTouchesUp releaseState).panGestureActive = false ∧
    (onTouchesUp releaseState).translationX = 0 :=
  ⟨(release_commit_decision releaseState rfl rfl rfl rfl rfl).2.1 attB
      (Or.inl (by norm_num [releaseState, baseState]))
      (by norm_num [releaseState, baseState]) rfl,
    (release_commit_decision releaseState rfl rfl rfl rfl rfl).1.1,
    (release_commit_decision releaseState rfl rfl rfl rfl rfl).1.2.2.1⟩

/- ### C4 — gesture updates keep the offset in range -/

/-- C4: while the pan is active, a move update whose tentative offset
`containerWidth * page - translationX` leaves
`[0, containerWidth * (attachments.length - 1)]`, or that arrives while
`containerWidth` is zero, leaves the whole state (offset and accumulators
included) unchanged; and in every case the resulting offset is either the old
one or lies inside that interval. -/
theorem gesture_update_offset_invariant (s : CarouselState) (evt : PanEvent)
    (hA : s.panGestureActive = true) :
    ((s.containerWidth = 0 ∨
        s.containerWidth * (s.page : ℚ) - evt.translationX < 0 ∨
        s.containerWidth * (s.page : ℚ) - evt.translationX >
          s.containerWidth * ((s.attachments.length : ℚ) - 1)) →
      onUpdate s evt = s) ∧
    ((onUpdate s evt).offsetX = s.offsetX ∨
      (0 ≤ (onUpdate s evt).offsetX ∧
        (onUpdate s evt).offsetX ≤ s.containerWidth * ((s.attachments.length : ℚ) - 1))) := by
  constructor
  · intro h
    unfold onUpdate
    rw [hA]
    dsimp only
    split_ifs with h0 h1 h2 h3
    · rfl
    · rfl
    · rfl
    · rfl
    · rcases h with h | h | h
      · exact absurd h h1
      · exact absurd (Or.inl h) h3
      · exact absurd (Or.inr h) h3
  · unfold onUpdate
    rw [hA]
    dsimp only
    split_ifs with h0 h1 h2 h3
    · left; rfl
    · left; rfl
    · left; rfl
    · left; rfl
    · right
      push_neg at h3
      exact ⟨h3.1, h3.2⟩

/-- Witness for C4: an out-of-range drag on the first page is ignored, and an
in-range drag on the second page keeps the offset within bounds. -/
theorem gesture_update_offset_invariant_witness :
    onUpdate { baseState with panGestureActive := true } ⟨100, 0, 0, 0⟩ =
      { baseState with panGestureActive := true } ∧
    ((onUpdate panningState ⟨-50, 0, -20, 0⟩).offsetX = panningState.offsetX ∨
      (0 ≤ (onUpdate panningState ⟨-50, 0, -20, 0⟩).offsetX ∧
        (onUpdate panningState ⟨-50, 0, -20, 0⟩).offsetX ≤
          panningState.containerWidth * ((panningState.attachments.length : ℚ) - 1))) :=
  ⟨(gesture_update_offset_invariant { baseState with panGestureActive := true }
      ⟨100, 0, 0, 0⟩ rfl).1 (Or.inr (Or.inl (by norm_num [baseState]))),
    (gesture_update_offset_invariant panningState ⟨-50, 0, -20, 0⟩ rfl).2⟩

/- ### C5 — re-targeted animations still commit their stale target -/

/-- C5 (code evaluation at the failing input): from rest on page 1 of three
attachments, pressing forward installs an animation that will commit page 2;
re-targeting it mid-flight by pressing back makes the superseded animation's
callback fire (reanimated invokes it with `finished = false`, which the
callback ignores), committing the stale page 2 even though no animation has
completed — the replacement animation toward page 0 is still in flight. -/
theorem retarget_fires_stale_commit :
    (cycleThroughAttachments restingPage1State 1).page = 1 ∧
    (cycleThroughAttachments restingPage1State 1).animPending
      = some (jumpAnim 300 2 .inOutQuad) ∧
    (cycleThroughAttachments (cycleThroughAttachments restingPage1State 1) (-1)).page = 2 ∧
    (cycleThroughAttachments (cycleThroughAttachments restingPage1State 1) (-1)).animPending
      = some (jumpAnim 300 0 .inOutQuad) := by
  norm_num [cycleThroughAttachments, restingPage1State, baseState, getItem, setOffsetX,
    startTiming, cancelPending, fireCallback, jumpAnim, attA, attB, attC]

/- ### C8 — an arrow-button animation does not block pan activation -/

/-- C8 (code evaluation at the failing input): in a zoomed-out idle carousel,
pressing the forward arrow starts a 300 ms animation but leaves
`isPagerScrolling` false (`cycleThroughAttachments` never sets it, though its
completion callback clears it), so a touch-move arriving while that animation
is in flight activates the pan gesture. -/
theorem arrow_flight_allows_activation :
    (cycleThroughAttachments zoomedIdleState 1).animPending
      = some (jumpAnim 300 1 .inOutQuad) ∧
    (cycleThroughAttachments zoomedIdleState 1).isPagerScrolling = false ∧
    (onTouchesMove (cycleThroughAttachments zoomedIdleState 1) ⟨5, 5⟩).panGestureActive
      = true := by
  norm_num [cycleThroughAttachments, onTouchesMove, zoomedIdleState, baseState, getItem,
    setOffsetX, startTiming, cancelPending, fireCallback, jumpAnim, attA, attB, attC]

/- ### C9 — the two step variants, compared -/

theorem cancelPending_animPending (s : CarouselState) :
    (cancelPending s).animPending = none := by
  cases h : s.animPending <;> simp [cancelPending, h, fireCallback]

theorem cancelPending_eq_self_of_none (s : CarouselState) (h : s.animPending = none) :
    cancelPending s = s := by
  simp [cancelPending, h]

theorem cancelPending_offsetX (s : CarouselState) :
    (cancelPending s).offsetX = s.offsetX := by
  cases h : s.animPending <;> simp [cancelPending, h, fireCallback]

/-- C9 counterexample: from a state whose offset was dragged off the resting
position, the two step variants do not perform the same transition even after
identifying the easing curves — `cycleThroughAttachments` first snaps the
offset to `containerWidth * page` while `gotoAttachments` leaves it where the
gesture put it. -/
theorem step_variants_differ_beyond_easing :
    eraseEasing (cycleThroughAttachments draggedState 1)
      ≠ eraseEasing (gotoAttachments draggedState 1) := by
  have h1 : (eraseEasing (cycleThroughAttachments draggedState 1)).offsetX = 0 := by
    norm_num [cycleThroughAttachments, eraseEasing, draggedState, baseState, getItem,
      setOffsetX, startTiming, cancelPending, fireCallback, attA, attB, attC]
  have h2 : (eraseEasing (gotoAttachments draggedState 1)).offsetX = 37 := by
    norm_num [gotoAttachments, eraseEasing, draggedState, baseState, getItem,
      setOffsetX, startTiming, cancelPending, fireCallback, attA, attB, attC]
  intro heq
  rw [heq, h2] at h1
  norm_num at h1

/-- C9 (amended): on a valid target index, the two step variants share the
guard, the animation target `containerWidth * nextIndex`, the 300 ms duration
and the completion commit of `nextIndex`; they differ only in the easing curve
and in that `cycleThroughAttachments` additionally snaps the offset to
`containerWidth * page` before animating, while `gotoAttachments` keeps the
current offset. -/
theorem step_variants_agree_up_to_easing_and_snap (s : CarouselState) (d : Int)
    (a : Attachment) (hF : s.isFullScreen = false) (hR : s.scrollRefSet = true)
    (hget : getItem s.attachments (s.page + d) = some a) :
    cycleThroughAttachments s d
        = { gotoAttachments s d with
              offsetX := s.containerWidth * (s.page : ℚ)
              animPending := some (jumpAnim s.containerWidth (s.page + d) .inOutQuad) } ∧
    (gotoAttachments s d).animPending
        = some (jumpAnim s.containerWidth (s.page + d) .outQuad) ∧
    (gotoAttachments s d).offsetX = s.offsetX := by
  refine ⟨?_, ?_, ?_⟩ <;>
    simp [cycleThroughAttachments, gotoAttachments, hF, hR, hget, setOffsetX, startTiming,
      jumpAnim, cancelPending_animPending, cancelPending_eq_self_of_none, cancelPending_offsetX]

/-- Witness for C9 (amended) at the base state, stepping forward by one. -/
theorem step_variants_agree_witness :
    cycleThroughAttachments baseState 1
        = { gotoAttachments baseState 1 with
              offsetX := baseState.containerWidth * (baseState.page : ℚ)
              animPending := some (jumpAnim baseState.containerWidth (baseState.page + 1)
                .inOutQuad) } ∧
    (gotoAttachments baseState 1).animPending
        = some (jumpAnim baseState.containerWidth (baseState.page + 1) .outQuad) ∧
    (gotoAttachments baseState 1).offsetX = baseState.offsetX :=
  step_variants_agree_up_to_easing_and_snap baseState 1 attB rfl rfl rfl

end Carousel
